import Mathlib

/-!
Verification of `examples/pytorch/text-generation/bench_generation.py`.

The script is a benchmarking harness: it resolves a model/tokenizer pair
from a fixed table, runs `n_warmup_runs + n_runs` generation iterations,
builds one record per iteration and finally computes two median metrics.
We embed the pure data-flow of the script: tensors produced by the
external library (tokenizer encodings, generation outputs) and measured
wall-clock latencies are inputs of the embedding, supplied per iteration
by an environment; everything computed by the script itself (record
fields, warmup flags, medians, string truncation, table lookup) is
translated directly from the source.
-/

namespace BenchGeneration

/-- `MAX_LENGTH = int(10000)` — hardcoded fallback bound (line 87). -/
def MAX_LENGTH : Int := 10000

/-- `MODEL_CLASSES` (lines 89-100): model-type key to the names of the
model class and tokenizer class. The classes themselves live in the
external library; the script only uses the table as a finite map, so we
record the class names. -/
def MODEL_CLASSES : List (String × String × String) :=
  [ ("gpt2", ("GPT2LMHeadModel", "GPT2Tokenizer")),
    ("ctrl", ("CTRLLMHeadModel", "CTRLTokenizer")),
    ("openai-gpt", ("OpenAIGPTLMHeadModel", "OpenAIGPTTokenizer")),
    ("xlnet", ("XLNetLMHeadModel", "XLNetTokenizer")),
    ("transfo-xl", ("TransfoXLLMHeadModel", "TransfoXLTokenizer")),
    ("xlm", ("XLMWithLMHeadModel", "XLMTokenizer")),
    ("gptj", ("GPTJForCausalLM", "AutoTokenizer")),
    ("bloom", ("BloomForCausalLM", "BloomTokenizerFast")),
    ("llama", ("LlamaForCausalLM", "LlamaTokenizer")),
    ("opt", ("OPTForCausalLM", "GPT2Tokenizer")) ]

/-- `adjust_length_to_model` (lines 178-185), translated branch for
branch.  Python ints are unbounded, so `Int`. -/
def adjust_length_to_model (length max_sequence_length : Int) : Int :=
  if length < 0 ∧ max_sequence_length > 0 then max_sequence_length
  else if 0 < max_sequence_length ∧ max_sequence_length < length then max_sequence_length
  else if length < 0 then MAX_LENGTH
  else length

/-- `args.use_cache` coercion (lines 407-411): the string is compared
with `"False"`; every other string yields `True`. -/
def effective_use_cache (s : String) : Bool :=
  if s = "False" then false else true

/-- Python `str.lower()` as used on line 443: character-wise lowering
(the table keys and inputs of interest are ASCII). -/
def pyLower (s : String) : String :=
  ⟨s.data.map Char.toLower⟩

/-- Model-type resolution key (line 443): `args.model_type.lower()`. -/
def model_type_key (model_type : String) : String :=
  pyLower model_type

/-- `MODEL_CLASSES[args.model_type]` after lowercasing (lines 443-444). -/
def resolveModelClass (model_type : String) : Option (String × String) :=
  MODEL_CLASSES.lookup (model_type_key model_type)

/-- The message of the `KeyError` raised on line 446.  The source passes
the literal braces of an unformatted f-string placeholder through. -/
def keyErrorMessage : String :=
  "the model \x7b\x7d you specified is not supported. You are welcome to add it and open a PR :)"

/-- Steps of the model-initialization phase that touch the external
library (lines 442-462): the table lookup happens inside the `try`
before `tokenizer_class.from_pretrained` and
`model_class.from_pretrained` run. -/
inductive LoadStep where
  | loadTokenizer
  | loadModel
  deriving DecidableEq, Repr

/-- Model/tokenizer initialization phase (lines 442-462): resolve the
class pair from `MODEL_CLASSES`, raising `KeyError` when the lowercased
key is absent; only on success are the tokenizer and the model loaded
(recorded as the steps the successful run performs, in order). -/
def resolveAndLoad (model_type : String) :
    Except String (List LoadStep × String × String) :=
  match resolveModelClass model_type with
  | none => .error keyErrorMessage
  | some classes => .ok ([LoadStep.loadTokenizer, LoadStep.loadModel], classes)

/-- Python `str.find` over character lists: index of the first
occurrence of `pat` in `s`, or `-1` when there is none. -/
def pyFindAux (pat : List Char) : List Char → Nat → Int
  | [], i => if pat.isPrefixOf ([] : List Char) then (i : Int) else -1
  | c :: rest, i =>
    if pat.isPrefixOf (c :: rest) then (i : Int) else pyFindAux pat rest (i + 1)

/-- `text.find(pat)` (line 563). -/
def pyFind (s pat : String) : Int :=
  pyFindAux pat.data s.data 0

/-- Python slice `text[:n]` where `n` may be `None` (whole string), a
non-negative index (take `n`) or a negative index (drop `-n` characters
from the end). -/
def pySliceTo (s : String) : Option Int → String
  | none => s
  | some n =>
    if n < 0 then ⟨s.data.take (((s.data.length : Int) + n).toNat)⟩
    else ⟨s.data.take n.toNat⟩

/-- The slice bound of line 563:
`text.find(args.stop_token) if args.stop_token else None`.
`args.stop_token` is `None` by default and falsy when empty. -/
def stopBound (stop_token : Option String) (text : String) : Option Int :=
  match stop_token with
  | none => none
  | some st => if st = "" then none else some (pyFind text st)

/-- Line 563: `text = text[: text.find(args.stop_token) if args.stop_token else None]`. -/
def truncate_at_stop (stop_token : Option String) (text : String) : String :=
  pySliceTo text (stopBound stop_token text)

/-- The scalar arguments the record-building code reads (lines 330,
388-389 after parsing).  `length` has already passed through
`adjust_length_to_model` (line 465). -/
structure BenchArgs where
  length : Int
  max_new_tokens : Option Int
  min_new_tokens : Option Int
  deriving DecidableEq, Repr

/-- Per-iteration data produced by the external library: the encoded
prompt row of the `(1, L)` tensor returned by `tokenizer.encode`
(line 508/513), the output token sequences after the squeeze of
lines 546-551, and the measured wall-clock latency
`end_time - start_time` (lines 494, 574-575), modelled as a rational. -/
structure IterEnv where
  encoded_prompt : List Nat
  output_sequences : List (List Nat)
  latency : ℚ
  deriving DecidableEq, Repr

/-- One benchmark record (lines 582-597).  The optional
`input_sequences`/`output_sequences`/`outputs` entries only duplicate
data already in the environment and are omitted. -/
structure Record where
  latency : ℚ
  warmup : Bool
  input_lengths : List Nat
  output_lengths : List Nat
  total_tokens : Nat
  batch_size : Nat
  max_length : Int
  max_new_tokens : Option Int
  min_new_tokens : Option Int
  tokens_per_second : ℚ
  deriving DecidableEq, Repr

/-- The metrics mapping (lines 602-605): exactly two entries. -/
structure Metrics where
  median_warmup_tokens_per_second : ℚ
  median_tokens_per_second : ℚ
  deriving DecidableEq, Repr

/-- Lines 517-520: `input_ids = None` when `encoded_prompt.size()[-1] == 0`,
else the encoded prompt itself. -/
def inputIds (env : IterEnv) : Option (List Nat) :=
  if env.encoded_prompt.length = 0 then none else some env.encoded_prompt

/-- Record construction of lines 582-593.  `input_sequences` is
`input_ids.tolist()`, a one-row list of rows (line 579);
`max_length = args.length + len(encoded_prompt[0])` (line 522);
`total_tokens` sums the output sequence lengths (line 587);
`tokens_per_second = total_tokens / latency` (line 593). -/
def buildRecord (args : BenchArgs) (nWarmup i : Nat) (env : IterEnv)
    (input_sequences : List (List Nat)) : Record :=
  let total : Nat := (env.output_sequences.map List.length).sum
  { latency := env.latency
    warmup := decide (i < nWarmup)
    input_lengths := input_sequences.map List.length
    output_lengths := env.output_sequences.map List.length
    total_tokens := total
    batch_size := env.output_sequences.length
    max_length := args.length + (env.encoded_prompt.length : Int)
    max_new_tokens := args.max_new_tokens
    min_new_tokens := args.min_new_tokens
    tokens_per_second := (total : ℚ) / env.latency }

/-- One loop iteration as far as the record is concerned: line 579
dereferences `input_ids` (`input_ids.to('cpu')...`), which raises on
`None`, so an iteration with empty encoded prompt yields no record
(`none`); otherwise the record of lines 582-593 is appended. -/
def iterationRecord (args : BenchArgs) (nWarmup i : Nat) (env : IterEnv) :
    Option Record :=
  (inputIds env).map (fun ids => buildRecord args nWarmup i env [ids])

/-- The benchmark loop body over a list of iteration indices:
`records.append(record)` per iteration (line 599); a raised error
aborts the whole run, producing no record list. -/
def benchLoopAux (args : BenchArgs) (nWarmup : Nat) (iter : Nat → IterEnv) :
    List Nat → Option (List Record)
  | [] => some []
  | i :: rest =>
    match iterationRecord args nWarmup i (iter i) with
    | none => none
    | some r =>
      match benchLoopAux args nWarmup iter rest with
      | none => none
      | some rs => some (r :: rs)

/-- Lines 490-599: `for i in tqdm(range(args.n_warmup_runs + args.n_runs))`. -/
def benchLoop (args : BenchArgs) (nWarmup nRuns : Nat) (iter : Nat → IterEnv) :
    Option (List Record) :=
  benchLoopAux args nWarmup iter (List.range (nWarmup + nRuns))

/-- Insertion into a sorted list of rationals. -/
def insertQ (x : ℚ) : List ℚ → List ℚ
  | [] => [x]
  | y :: ys => if x ≤ y then x :: y :: ys else y :: insertQ x ys

/-- `sorted(data)` for rationals. -/
def sortQ (l : List ℚ) : List ℚ :=
  l.foldr insertQ []

/-- Modelled from the spec: the statistical median used by the script
through the standard library (`statistics.median`, not part of this
repository): sort the data, return the middle element for odd length,
the mean of the two middle elements for even length, and fail
(`StatisticsError`, modelled as `none`) on empty input. -/
def pyMedian (l : List ℚ) : Option ℚ :=
  let s := sortQ l
  let n := s.length
  if n = 0 then none
  else if n % 2 = 1 then s.get? (n / 2)
  else
    match s.get? (n / 2 - 1), s.get? (n / 2) with
    | some a, some b => some ((a + b) / 2)
    | _, _ => none

/-- `[rec['tokens_per_second'] for rec in records if rec["warmup"]==True]` (line 603). -/
def warmupTps (records : List Record) : List ℚ :=
  (records.filter (fun r => r.warmup == true)).map (fun r => r.tokens_per_second)

/-- `[rec['tokens_per_second'] for rec in records if rec["warmup"]==False]` (line 604). -/
def measuredTps (records : List Record) : List ℚ :=
  (records.filter (fun r => r.warmup == false)).map (fun r => r.tokens_per_second)

/-- The metrics construction of lines 602-605; a `StatisticsError` from
either median aborts with no metrics. -/
def buildMetrics (records : List Record) : Option Metrics :=
  match pyMedian (warmupTps records), pyMedian (measuredTps records) with
  | some a, some b =>
    some { median_warmup_tokens_per_second := a, median_tokens_per_second := b }
  | _, _ => none

/-! Concrete configurations used to exercise the definitions. -/

/-- A concrete argument set: requested length 5, no new-token bounds. -/
def cargs : BenchArgs := ⟨5, none, none⟩

/-- A concrete iteration environment: one-token prompt, one output
sequence of two tokens, latency 1. -/
def cenv : IterEnv := ⟨[7], [[1, 2]], 1⟩

/-- A concrete iteration environment whose encoded prompt is empty. -/
def cenvEmpty : IterEnv := ⟨[], [[1, 2]], 1⟩

/-- A constant iteration source. -/
def citer : Nat → IterEnv := fun _ => cenv

/-- The record list a 1-warmup, 1-measured run over `citer` produces. -/
def crecords : List Record :=
  [buildRecord cargs 1 0 cenv [[7]], buildRecord cargs 1 1 cenv [[7]]]

/-- The record list a 0-warmup, 1-measured run over `citer` produces. -/
def crecordsW0 : List Record :=
  [buildRecord cargs 0 0 cenv [[7]]]

/-- The metrics of `crecords`: each group is the singleton whose
tokens-per-second is `2 / 1`. -/
def cmetrics : Metrics :=
  { median_warmup_tokens_per_second := ((2 : Nat) : ℚ) / (1 : ℚ)
    median_tokens_per_second := ((2 : Nat) : ℚ) / (1 : ℚ) }

/-! Theorems. -/

/-- C5: `adjust_length_to_model(-1, 0)` returns the fixed fallback bound
`MAX_LENGTH = 10000`; `adjust_length_to_model(50, 20)` returns 20;
`adjust_length_to_model(10, 20)` returns 10. -/
theorem adjust_length_to_model_concrete :
    adjust_length_to_model (-1) 0 = MAX_LENGTH ∧ MAX_LENGTH = 10000 ∧
    adjust_length_to_model 50 20 = 20 ∧
    adjust_length_to_model 10 20 = 10 := by
  decide

/-- C6: the effective cache flag is `false` exactly when the
`use_cache` argument string equals `"False"`; every other string yields
`true`. -/
theorem effective_use_cache_false_iff (s : String) :
    effective_use_cache s = false ↔ s = "False" := by
  unfold effective_use_cache
  by_cases h : s = "False" <;> simp [h]

/-- C4 (evaluation at the failing input): with a stop token that does
not occur in the decoded text the code drops the final character
(`str.find` returns `-1` and the slice `text[:-1]` truncates), instead
of leaving the text unchanged; when the stop token occurs the text is
truncated at its first occurrence, and with no stop token the text is
unchanged. -/
theorem truncate_at_stop_eval :
    truncate_at_stop (some "X") "hello" = "hell" ∧
    truncate_at_stop (some "l") "hello" = "he" ∧
    truncate_at_stop none "hello" = "hello" := by
  decide

/-- C2: every record sets `tokens_per_second` to
`total_tokens / latency` (stated under the claim's `latency > 0`
condition; the field is defined by exactly that quotient). -/
theorem record_tokens_per_second (args : BenchArgs) (nWarmup i : Nat)
    (env : IterEnv) (input_sequences : List (List Nat))
    (h : 0 < env.latency) :
    (buildRecord args nWarmup i env input_sequences).tokens_per_second =
      ((buildRecord args nWarmup i env input_sequences).total_tokens : ℚ) /
        (buildRecord args nWarmup i env input_sequences).latency :=
  rfl

/-- C2 witness: concrete instance with positive latency. -/
theorem record_tokens_per_second_witness :
    0 < cenv.latency ∧
    (buildRecord cargs 1 0 cenv [[7]]).tokens_per_second =
      ((buildRecord cargs 1 0 cenv [[7]]).total_tokens : ℚ) /
        (buildRecord cargs 1 0 cenv [[7]]).latency :=
  ⟨by decide, record_tokens_per_second cargs 1 0 cenv [[7]] (by decide)⟩

/-- C9: an empty encoded prompt makes `input_ids` `None`, and the
iteration then produces no record: line 579 dereferences the `None`
input before the record of lines 582-593 can be built. -/
theorem empty_prompt_no_record (args : BenchArgs) (nWarmup i : Nat)
    (env : IterEnv) (h : env.encoded_prompt = []) :
    inputIds env = none ∧ iterationRecord args nWarmup i env = none := by
  have h1 : inputIds env = none := by simp [inputIds, h]
  exact ⟨h1, by simp [iterationRecord, h1]⟩

/-- C9 witness: concrete empty-prompt environment. -/
theorem empty_prompt_no_record_witness :
    cenvEmpty.encoded_prompt = [] ∧
    (inputIds cenvEmpty = none ∧
      iterationRecord cargs 1 0 cenvEmpty = none) :=
  ⟨rfl, empty_prompt_no_record cargs 1 0 cenvEmpty rfl⟩

/-- C8 counterexample: `"GPT2"` is not a key of `MODEL_CLASSES`, yet
the initialization phase succeeds (the lookup uses the lowercased
string), contradicting the claim that every non-key string raises. -/
theorem resolve_uppercase_succeeds :
    ("GPT2" ∈ MODEL_CLASSES.map Prod.fst) = False ∧
    resolveAndLoad "GPT2" =
      .ok ([LoadStep.loadTokenizer, LoadStep.loadModel],
        "GPT2LMHeadModel", "GPT2Tokenizer") :=
  ⟨by decide, rfl⟩

/-- C8 (amended): for every `model_type` whose lowercased form is not a
key of `MODEL_CLASSES`, the initialization phase raises the `KeyError`
message of line 446 before any tokenizer- or model-loading step. -/
theorem resolveAndLoad_unsupported_key (model_type : String)
    (h : MODEL_CLASSES.lookup (model_type_key model_type) = none) :
    resolveAndLoad model_type = .error keyErrorMessage := by
  simp [resolveAndLoad, resolveModelClass, h]

/-- C8 witness: `"foo"` lowers to itself and is not a key. -/
theorem resolveAndLoad_unsupported_key_witness :
    MODEL_CLASSES.lookup (model_type_key "foo") = none ∧
    resolveAndLoad "foo" = .error keyErrorMessage :=
  ⟨rfl, resolveAndLoad_unsupported_key "foo" rfl⟩

/-- C10: model-type resolution lowercases its argument before the
table lookup, so any two strings with the same lowercased form — in
particular any capitalization variant of a supported key — resolve to
the same model/tokenizer pair. -/
theorem resolveModelClass_case_insensitive (s t : String)
    (h : pyLower s = pyLower t) :
    resolveModelClass s = resolveModelClass t ∧
    resolveModelClass s = MODEL_CLASSES.lookup (pyLower s) := by
  constructor
  · unfold resolveModelClass model_type_key
    rw [h]
  · rfl

/-- C10 witness: `"GPT2"` resolves like `"gpt2"`. -/
theorem resolveModelClass_case_insensitive_witness :
    pyLower "GPT2" = pyLower "gpt2" ∧
    (resolveModelClass "GPT2" = resolveModelClass "gpt2" ∧
      resolveModelClass "GPT2" = MODEL_CLASSES.lookup (pyLower "GPT2")) :=
  ⟨by decide, resolveModelClass_case_insensitive "GPT2" "gpt2" (by decide)⟩

/-- A produced record's warmup flag is `i < nWarmup` for its iteration
index `i`. -/
lemma iterationRecord_warmup {args : BenchArgs} {nWarmup i : Nat}
    {env : IterEnv} {r : Record}
    (h : iterationRecord args nWarmup i env = some r) :
    r.warmup = decide (i < nWarmup) := by
  unfold iterationRecord at h
  cases hid : inputIds env with
  | none => rw [hid] at h; simp at h
  | some ids =>
    rw [hid] at h
    simp only [Option.map_some'] at h
    have hb := Option.some.inj h
    rw [← hb]
    rfl

/-- Shape of a successful pass of the loop body over a list of
iteration indices: one record per index, each with the warmup flag of
its index. -/
lemma benchLoopAux_spec (args : BenchArgs) (nWarmup : Nat)
    (iter : Nat → IterEnv) :
    ∀ (l : List Nat) (rs : List Record),
      benchLoopAux args nWarmup iter l = some rs →
      rs.length = l.length ∧
        ∀ j (h1 : j < rs.length) (h2 : j < l.length),
          (rs.get ⟨j, h1⟩).warmup = decide (l.get ⟨j, h2⟩ < nWarmup) := by
  intro l
  induction l with
  | nil =>
    intro rs h
    simp [benchLoopAux] at h
    subst h
    exact ⟨rfl, fun j h1 _ => absurd h1 (Nat.not_lt_zero j)⟩
  | cons i rest ih =>
    intro rs h
    unfold benchLoopAux at h
    cases hr : iterationRecord args nWarmup i (iter i) with
    | none => rw [hr] at h; simp at h
    | some r =>
      rw [hr] at h
      cases haux : benchLoopAux args nWarmup iter rest with
      | none => rw [haux] at h; simp at h
      | some rs0 =>
        rw [haux] at h
        simp only [Option.some.injEq] at h
        subst h
        obtain ⟨hlen, hidx⟩ := ih rs0 haux
        refine ⟨by simp [hlen], ?_⟩
        intro j h1 h2
        cases j with
        | zero => simpa using iterationRecord_warmup hr
        | succ k =>
          have h1' : k < rs0.length := by simpa using h1
          have h2' : k < rest.length := by simpa using h2
          simpa using hidx k h1' h2'

/-- Shape of a successful benchmark loop: `nWarmup + nRuns` records in
order of iteration index, each with the warmup flag of its index. -/
lemma benchLoop_spec (args : BenchArgs) (nWarmup nRuns : Nat)
    (iter : Nat → IterEnv) (records : List Record)
    (h : benchLoop args nWarmup nRuns iter = some records) :
    records.length = nWarmup + nRuns ∧
      ∀ j (hj : j < records.length),
        (records.get ⟨j, hj⟩).warmup = decide (j < nWarmup) := by
  obtain ⟨hlen, hidx⟩ :=
    benchLoopAux_spec args nWarmup iter (List.range (nWarmup + nRuns)) records h
  rw [List.length_range] at hlen
  refine ⟨hlen, fun j hj => ?_⟩
  have h2 : j < (List.range (nWarmup + nRuns)).length := by
    rw [List.length_range, ← hlen]
    exact hj
  have := hidx j hj h2
  rwa [List.get_range] at this

/-- C1: a completed benchmark loop over `n_warmup_runs = W` and
`n_runs = R` produces exactly `W + R` records, the record at position
`j` carrying `warmup = true` exactly when `j < W` — so the first `W`
records are the warmup records and the remaining `R` are measured, with
no overlap or gap. -/
theorem benchLoop_record_layout (args : BenchArgs) (nWarmup nRuns : Nat)
    (iter : Nat → IterEnv) (records : List Record)
    (h : benchLoop args nWarmup nRuns iter = some records) :
    records.length = nWarmup + nRuns ∧
      ∀ j (hj : j < records.length),
        (records.get ⟨j, hj⟩).warmup = decide (j < nWarmup) :=
  benchLoop_spec args nWarmup nRuns iter records h

/-- C1 witness: a 1-warmup, 1-measured run over the constant
environment produces the two-record list `crecords`. -/
theorem benchLoop_record_layout_witness :
    benchLoop cargs 1 1 citer = some crecords ∧ crecords.length = 1 + 1 :=
  ⟨rfl, (benchLoop_record_layout cargs 1 1 citer crecords rfl).1⟩

/-- C3: when the metrics construction of lines 602-605 succeeds it
yields the two-field mapping whose
`median_warmup_tokens_per_second` is the statistical median of the
tokens-per-second values of the `warmup = true` records and whose
`median_tokens_per_second` is the statistical median of those of the
`warmup = false` records (the `Metrics` structure has exactly these two
entries). -/
theorem buildMetrics_group_medians (records : List Record) (m : Metrics)
    (h : buildMetrics records = some m) :
    pyMedian (warmupTps records) = some m.median_warmup_tokens_per_second ∧
    pyMedian (measuredTps records) = some m.median_tokens_per_second := by
  unfold buildMetrics at h
  cases hw : pyMedian (warmupTps records) with
  | none => rw [hw] at h; simp at h
  | some a =>
    cases hm : pyMedian (measuredTps records) with
    | none => rw [hw, hm] at h; simp at h
    | some b =>
      rw [hw, hm] at h
      have hmb := Option.some.inj h
      rw [← hmb]
      exact ⟨rfl, rfl⟩

/-- C3 witness: the metrics of the concrete two-record list. -/
theorem buildMetrics_group_medians_witness :
    buildMetrics crecords = some cmetrics ∧
    (pyMedian (warmupTps crecords) =
        some cmetrics.median_warmup_tokens_per_second ∧
      pyMedian (measuredTps crecords) =
        some cmetrics.median_tokens_per_second) :=
  ⟨rfl, buildMetrics_group_medians crecords cmetrics rfl⟩

/-- C7: with a completed benchmark loop, the median computation of
lines 602-605 fails (yields no metrics) whenever `n_warmup_runs = 0` or
`n_runs = 0`, because the corresponding record group is then empty and
the statistical median of an empty sequence raises. -/
theorem buildMetrics_fails_without_group (args : BenchArgs)
    (nWarmup nRuns : Nat) (iter : Nat → IterEnv) (records : List Record)
    (h0 : nWarmup = 0 ∨ nRuns = 0)
    (h : benchLoop args nWarmup nRuns iter = some records) :
    buildMetrics records = none := by
  obtain ⟨hlen, hidx⟩ := benchLoop_spec args nWarmup nRuns iter records h
  cases h0 with
  | inl hW =>
    have hall : ∀ r ∈ records, r.warmup = false := by
      intro r hr
      obtain ⟨⟨j, hj⟩, hget⟩ := List.mem_iff_get.mp hr
      have hwm := hidx j hj
      rw [hget, hW] at hwm
      simpa using hwm
    have hfil : records.filter (fun r => r.warmup == true) = [] := by
      rw [List.filter_eq_nil]
      intro r hr
      simp [hall r hr]
    have hwmed : pyMedian (warmupTps records) = none := by
      have htps : warmupTps records = [] := by
        unfold warmupTps
        rw [hfil]
        rfl
      rw [htps]
      rfl
    unfold buildMetrics
    rw [hwmed]
  | inr hR =>
    have hall : ∀ r ∈ records, r.warmup = true := by
      intro r hr
      obtain ⟨⟨j, hj⟩, hget⟩ := List.mem_iff_get.mp hr
      have hjW : j < nWarmup := by
        have hjl := hj
        rw [hlen, hR] at hjl
        simpa using hjl
      have hwm := hidx j hj
      rw [hget] at hwm
      simp [hjW] at hwm
      exact hwm
    have hfil : records.filter (fun r => r.warmup == false) = [] := by
      rw [List.filter_eq_nil]
      intro r hr
      simp [hall r hr]
    have hmmed : pyMedian (measuredTps records) = none := by
      have htps : measuredTps records = [] := by
        unfold measuredTps
        rw [hfil]
        rfl
      rw [htps]
      rfl
    unfold buildMetrics
    rw [hmmed]
    cases pyMedian (warmupTps records) <;> rfl

/-- C7 witness: a 0-warmup, 1-measured run yields records whose warmup
group is empty, and no metrics. -/
theorem buildMetrics_fails_without_group_witness :
    benchLoop cargs 0 1 citer = some crecordsW0 ∧
    buildMetrics crecordsW0 = none :=
  ⟨rfl, buildMetrics_fails_without_group cargs 0 1 citer crecordsW0
    (Or.inl rfl) rfl⟩

end BenchGeneration
